import Mathlib

/-!
Shallow embedding of the Moddable APDS-9960 ambient-light sensor driver
(src/modules/drivers/sensors/apds9960/apds9960.js) and proofs about its
configuration, sampling and shutdown logic.

Modelling conventions:
* JavaScript numbers supplied by the caller are modelled as `Int`
  (all values the driver stores or validates are integral).
* The private configuration mirror (`#configuration`, `#maxCount`) is the
  `SensorState` structure.  Fields the class initializer leaves absent
  (threshold bounds and persistence values, which first appear when
  `configure` stores them) are `Option Int`, `none` meaning the JS
  property is `undefined`.
* Bus traffic is recorded as a trace of `BusOp` values instead of being
  performed; `configure` returns the error raised (if any), the mirror at
  the moment of the throw, and the bus operations issued so far.
* The driver's `configure` body is a straight-line sequence of guarded
  blocks with early exits via `throw`; it is embedded as a chain of
  continuation functions, one per block, in source order.
-/

namespace APDS9960

/-- Register addresses, from the frozen `Register` map in the source. -/
def Register.AILTL : Int := 0x84

def Register.AIHTL : Int := 0x86

def Register.PERS : Int := 0x8C

def Register.ENABLE : Int := 0x80

def Register.ATIME : Int := 0x81

def Register.WTIME : Int := 0x83

def Register.CONTROLONE : Int := 0x8F

def Register.ID : Int := 0x92

def Register.STATUS : Int := 0x93

def Register.CDATAL : Int := 0x94

def Register.CDATAH : Int := 0x95

/-- One operation on the sensor's I2C bus (or a release of a held
resource).  The driver under verification only ever issues these. -/
inductive BusOp where
  | writeUint8 (register : Int) (value : Int)
  | writeUint16 (register : Int) (value : Int)
  | readUint8 (register : Int)
  | readBuffer (register : Int)
  | ioClose
  | monitorClose
deriving DecidableEq, Repr

/-- The seven feature flags of `#configuration.enabled`, in source order. -/
structure Enabled where
  GEN : Bool
  PIEN : Bool
  AIEN : Bool
  WEN : Bool
  PEN : Bool
  AEN : Bool
  PON : Bool
deriving DecidableEq, Repr

/-- The `#configuration` mirror object.  Threshold and persistence fields
are absent (`undefined`) until `configure` first stores them, hence
`Option Int`. -/
structure Configuration where
  enabled : Enabled
  alsIntegrationCycles : Int
  alsGain : Int
  proximityGain : Int
  alsThresholdLow : Option Int
  alsThresholdHigh : Option Int
  alsThresholdPersistence : Option Int
  proximityThresholdPersistence : Option Int
deriving DecidableEq, Repr

/-- The driver's mutable private state relevant to `configure`/`sample`:
the configuration mirror plus the derived `#maxCount` saturation ceiling. -/
structure SensorState where
  configuration : Configuration
  maxCount : Int
deriving DecidableEq, Repr

/-- The recognized option bag accepted by `configure(options)`; `none`
models a property that is absent (`undefined`) in the call. -/
structure Options where
  enableALS : Option Bool := none
  «on» : Option Bool := none
  alsIntegrationCycles : Option Int := none
  alsGain : Option Int := none
  proximityGain : Option Int := none
  alsThresholdHigh : Option Int := none
  alsThresholdLow : Option Int := none
  alsThresholdPersistence : Option Int := none
  proximityThresholdPersistence : Option Int := none
deriving DecidableEq, Repr

/-- The distinct errors `configure` can throw, one per `throw` site. -/
inductive ConfigError where
  | invalidAlsGain
  | invalidProximityGain
  | invalidAlsIntegrationCycles
  | invalidAlsThresholdLow
  | invalidAlsThresholdHigh
  | invalidAlsThresholdPersistence
  | invalidProximityThresholdPersistence
deriving DecidableEq, Repr

/-- Outcome of one `configure` call: the error thrown (if any), the
configuration mirror at return/throw time, and the bus operations issued
before returning or throwing. -/
structure ConfigResult where
  error : Option ConfigError
  state : SensorState
  trace : List BusOp
deriving DecidableEq, Repr

/-- The `switch (configuration.alsGain)` encoding: legal ALS gains map to
the two-bit field value, anything else falls to the `default:` throw. -/
def alsGainField (gain : Int) : Option Int :=
  if gain = 1 then some 0b00
  else if gain = 4 then some 0b01
  else if gain = 16 then some 0b10
  else if gain = 64 then some 0b11
  else none

/-- The `switch (configuration.proximityGain)` encoding: legal proximity
gains map to the field value already shifted into bits 2-3. -/
def proximityGainField (gain : Int) : Option Int :=
  if gain = 1 then some 0b0000
  else if gain = 2 then some 0b0100
  else if gain = 4 then some 0b1000
  else if gain = 8 then some 0b1100
  else none

/-- `apersFromCycles(cycles)` from the source: the ALS persistence cycle
count to 4-bit APERS code mapping; `none` models `return undefined`. -/
def apersFromCycles (cycles : Int) : Option Int :=
  if cycles < 0 ∨ cycles > 60 then none
  else if cycles > 3 ∧ cycles % 5 ≠ 0 then none
  else if cycles ≤ 3 then some cycles
  else some (cycles / 5 + 3)

/-- Re-encoding of the stored mirror value used when the
`alsThresholdPersistence` option is absent:
`APERS = apersFromCycles(configuration.alsThresholdPersistence)`.
When the stored property is absent (or, unreachably, invalid) the JS
value is `NaN`/`undefined`, whose `ToInt32` coercion in the later
bitwise or contributes `0`. -/
def storedApers (stored : Option Int) : Int :=
  match stored with
  | none => 0
  | some v => (apersFromCycles v).getD 0

/-- `PPERS = configuration.proximityThresholdPersistence << 4`.  An
absent stored property is `undefined`, which `<<` coerces to `0`. -/
def storedPpers (stored : Option Int) : Int :=
  match stored with
  | none => 0
  | some v => v <<< 4

/-- The composite ENABLE byte rebuilt flag-by-flag (`e |= ...`) in the
final block of `configure`, accumulated left to right as in the source. -/
def enableByte (e : Enabled) : Int :=
  Int.lor
    (Int.lor
      (Int.lor
        (Int.lor
          (Int.lor
            (Int.lor
              (Int.lor 0 (if e.GEN then 0b01000000 else 0))
              (if e.PIEN then 0b00100000 else 0))
            (if e.AIEN then 0b00010000 else 0))
          (if e.WEN then 0b00001000 else 0))
        (if e.PEN then 0b00000100 else 0))
      (if e.AEN then 0b00000010 else 0))
    (if e.PON then 0b00000001 else 0)

/-- Final `configure` block: rewrite the full ENABLE byte when any
option that can affect it was present in the call. -/
def configureEnableWrite (o : Options) (c : Configuration) (maxCount : Int)
    (t : List BusOp) : ConfigResult :=
  if o.«on».isSome ∨ o.enableALS.isSome ∨ o.alsThresholdLow.isSome ∨
      o.alsThresholdHigh.isSome then
    ⟨none, ⟨c, maxCount⟩, t ++ [BusOp.writeUint8 Register.ENABLE (enableByte c.enabled)]⟩
  else
    ⟨none, ⟨c, maxCount⟩, t⟩

/-- Threshold-enable derivation block: when either threshold bound was in
the call, recompute `enabled.AIEN` from the (now merged) stored pair and
issue the interrupt-clearing dummy read of register 0xE7. -/
def configureAienUpdate (o : Options) (c : Configuration) (maxCount : Int)
    (t : List BusOp) : ConfigResult :=
  if o.alsThresholdLow.isSome ∨ o.alsThresholdHigh.isSome then
    let c2 :=
      if c.alsThresholdHigh = some 0xFFFF ∧ c.alsThresholdLow = some 0 then
        { c with enabled := { c.enabled with AIEN := false } }
      else
        { c with enabled := { c.enabled with AIEN := true } }
    configureEnableWrite o c2 maxCount (t ++ [BusOp.readUint8 0xE7])
  else
    configureEnableWrite o c maxCount t

/-- Second half of the persistence block: validate/store the proximity
persistence, then pack `PPERS | APERS` into one PERS register write. -/
def configurePersistenceProx (o : Options) (c : Configuration) (maxCount : Int)
    (t : List BusOp) (apers : Int) : ConfigResult :=
  match o.proximityThresholdPersistence with
  | some p =>
    if p < 0 ∨ p > 15 then
      ⟨some ConfigError.invalidProximityThresholdPersistence, ⟨c, maxCount⟩, t⟩
    else
      let c2 := { c with proximityThresholdPersistence := some p }
      configureAienUpdate o c2 maxCount
        (t ++ [BusOp.writeUint8 Register.PERS
          (Int.lor (storedPpers c2.proximityThresholdPersistence) apers)])
  | none =>
    configureAienUpdate o c maxCount
      (t ++ [BusOp.writeUint8 Register.PERS
        (Int.lor (storedPpers c.proximityThresholdPersistence) apers)])

/-- Persistence block: entered when either persistence option is present;
the ALS persistence is encoded (throwing a RangeError when
`apersFromCycles` yields `undefined`) and stored before the proximity
half runs. -/
def configurePersistence (o : Options) (c : Configuration) (maxCount : Int)
    (t : List BusOp) : ConfigResult :=
  if o.proximityThresholdPersistence.isSome ∨ o.alsThresholdPersistence.isSome then
    match o.alsThresholdPersistence with
    | some cycles =>
      match apersFromCycles cycles with
      | none => ⟨some ConfigError.invalidAlsThresholdPersistence, ⟨c, maxCount⟩, t⟩
      | some apers =>
        configurePersistenceProx o { c with alsThresholdPersistence := some cycles }
          maxCount t apers
    | none =>
      configurePersistenceProx o c maxCount t (storedApers c.alsThresholdPersistence)
  else
    configureAienUpdate o c maxCount t

/-- `alsThresholdHigh` block: a 16-bit range check, mirror store, and a
two-byte AIHTL write. -/
def configureThresholdHigh (o : Options) (c : Configuration) (maxCount : Int)
    (t : List BusOp) : ConfigResult :=
  match o.alsThresholdHigh with
  | some v =>
    if v < 0 ∨ v > 0xFFFF then
      ⟨some ConfigError.invalidAlsThresholdHigh, ⟨c, maxCount⟩, t⟩
    else
      configurePersistence o { c with alsThresholdHigh := some v } maxCount
        (t ++ [BusOp.writeUint16 Register.AIHTL v])
  | none => configurePersistence o c maxCount t

/-- `alsThresholdLow` block: a 16-bit range check, mirror store, and a
two-byte AILTL write. -/
def configureThresholdLow (o : Options) (c : Configuration) (maxCount : Int)
    (t : List BusOp) : ConfigResult :=
  match o.alsThresholdLow with
  | some v =>
    if v < 0 ∨ v > 0xFFFF then
      ⟨some ConfigError.invalidAlsThresholdLow, ⟨c, maxCount⟩, t⟩
    else
      configureThresholdHigh o { c with alsThresholdLow := some v } maxCount
        (t ++ [BusOp.writeUint16 Register.AILTL v])
  | none => configureThresholdHigh o c maxCount t

/-- `alsIntegrationCycles` block: the source accepts `0 ≤ cycles ≤ 256`
(`> 256 || < 0` throws), stores the cycle count, derives
`#maxCount = 1025 * cycles`, and writes `256 - cycles` to ATIME. -/
def configureIntegration (o : Options) (c : Configuration) (maxCount : Int)
    (t : List BusOp) : ConfigResult :=
  match o.alsIntegrationCycles with
  | some cycles =>
    if cycles > 256 ∨ cycles < 0 then
      ⟨some ConfigError.invalidAlsIntegrationCycles, ⟨c, maxCount⟩, t⟩
    else
      configureThresholdLow o { c with alsIntegrationCycles := cycles }
        (1025 * cycles)
        (t ++ [BusOp.writeUint8 Register.ATIME (256 - cycles)])
  | none => configureThresholdLow o c maxCount t

/-- The four unconditioned mirror stores at the top of `configure`: each
present option is written into the mirror before any validation runs. -/
def mergeOptions (o : Options) (c : Configuration) : Configuration :=
  let c := match o.enableALS with
    | some b => { c with enabled := { c.enabled with AEN := b } }
    | none => c
  let c := match o.«on» with
    | some b => { c with enabled := { c.enabled with PON := b } }
    | none => c
  let c := match o.alsGain with
    | some g => { c with alsGain := g }
    | none => c
  match o.proximityGain with
    | some g => { c with proximityGain := g }
    | none => c

/-- `Sensor.configure(options)`.  The unconditioned mirror stores run
first (`mergeOptions`); then the gain block validates the merged gains
through the two `switch` statements (either `default:` throws before the
shared CONTROLONE write), and the remaining blocks run in source order
via the continuation functions above. -/
def configure (s : SensorState) (o : Options) : ConfigResult :=
  let c := mergeOptions o s.configuration
  if o.alsGain.isSome ∨ o.proximityGain.isSome then
    match alsGainField c.alsGain with
    | none => ⟨some ConfigError.invalidAlsGain, ⟨c, s.maxCount⟩, []⟩
    | some fieldAls =>
      match proximityGainField c.proximityGain with
      | none => ⟨some ConfigError.invalidProximityGain, ⟨c, s.maxCount⟩, []⟩
      | some fieldProx =>
        configureIntegration o c s.maxCount
          [BusOp.writeUint8 Register.CONTROLONE
            (Int.lor (Int.lor 0 fieldAls) fieldProx)]
  else
    configureIntegration o c s.maxCount []

/-- `DataView.getUint16(offset, true)`: a little-endian 16-bit load from
two consecutive bytes of the 8-byte ALS block. -/
def le16 (lo hi : Nat) : Nat := lo + 256 * hi

/-- One channel of the sample result: the raw count divided by the
`#maxCount` saturation ceiling (rational, uncalibrated). -/
def normalized (raw : Nat) (maxCount : Int) : ℚ := (raw : ℚ) / (maxCount : ℚ)

/-- The `result.lightmeter` object: the four normalized channels. -/
structure Lightmeter where
  clear : ℚ
  red : ℚ
  green : ℚ
  blue : ℚ
deriving DecidableEq, Repr

/-- Outcome of one `sample()` call. `result = none` models `undefined`
(powered off); `some none` models the empty object `{}` (no fresh data);
`some (some lm)` carries the lightmeter.  `trace` is the bus traffic. -/
structure SampleResult where
  result : Option (Option Lightmeter)
  trace : List BusOp
deriving DecidableEq, Repr

/-- `Sensor.sample()`.  `status` is the byte the STATUS read returns and
`data` the 8 bytes the CDATAL burst read fills into `#alsBlock`.  The
source's `trace(...)` call is console logging, not a bus operation.  In
the Lean model a zero `maxCount` divides to `0` where JS would give
`Infinity`; every theorem touching channel values assumes a positive
ceiling or fixes it concretely. -/
def sample (s : SensorState) (status : Nat) (data : Fin 8 → Nat) : SampleResult :=
  if s.configuration.enabled.PON = false then
    ⟨none, []⟩
  else if s.configuration.enabled.AEN = true ∧ status % 2 = 1 then
    ⟨some (some
      { clear := normalized (le16 (data 0) (data 1)) s.maxCount
        red := normalized (le16 (data 2) (data 3)) s.maxCount
        green := normalized (le16 (data 4) (data 5)) s.maxCount
        blue := normalized (le16 (data 6) (data 7)) s.maxCount }),
      [BusOp.readUint8 Register.STATUS, BusOp.readBuffer Register.CDATAL]⟩
  else
    ⟨some none, [BusOp.readUint8 Register.STATUS]⟩

/-- The resources `close()` tests before acting: whether `#io` and
`#monitor` are still set.  After `close` both are `undefined`. -/
structure DriverResources where
  ioPresent : Bool
  monitorPresent : Bool
deriving DecidableEq, Repr

/-- `Sensor.close()`: when `#io` is set, write ENABLE = 0 and release the
bus; when `#monitor` is set, release it; then clear both references. -/
def close (r : DriverResources) : DriverResources × List BusOp :=
  (⟨false, false⟩,
    (if r.ioPresent then
      [BusOp.writeUint8 Register.ENABLE 0x00, BusOp.ioClose]
    else []) ++
    (if r.monitorPresent then [BusOp.monitorClose] else []))

/-- The `configuration` getter: a shallow copy of the mirror. -/
def configurationSnapshot (s : SensorState) : Configuration := s.configuration

/-- The `#configuration` class-field initializer: all flags false,
1 integration cycle, both gains 1, everything else absent. -/
def initialConfiguration : Configuration :=
  { enabled := ⟨false, false, false, false, false, false, false⟩
    alsIntegrationCycles := 1
    alsGain := 1
    proximityGain := 1
    alsThresholdLow := none
    alsThresholdHigh := none
    alsThresholdPersistence := none
    proximityThresholdPersistence := none }

/-- Driver state right after the class-field initializers
(`#maxCount = 1025`), before the constructor's `configure` call. -/
def initialState : SensorState := ⟨initialConfiguration, 1025⟩

/-- The default option bag the constructor passes to `configure`. -/
def constructorOptions : Options :=
  { «on» := some true
    enableALS := some true
    alsIntegrationCycles := some 10
    alsGain := some 1
    alsThresholdLow := some 0
    alsThresholdHigh := some 0xFFFF
    alsThresholdPersistence := some 1
    proximityThresholdPersistence := some 1 }

/-- Driver state after a successful construction. -/
def constructedState : SensorState := (configure initialState constructorOptions).state

/-- Driver state after `configure({alsThresholdLow: 5})` on the
constructed driver: stored threshold pair (5, 0xFFFF), AIEN true. -/
def lowFiveState : SensorState :=
  (configure constructedState { alsThresholdLow := some 5 }).state

/-- An all-zero ALS data block (every burst-read byte is 0). -/
def zeroBlock : Fin 8 → Nat := fun _ => 0

/-- An ALS data block whose little-endian clear channel reads
`0 + 256 * 8 = 2048`, with the other channels zero. -/
def overflowBlock : Fin 8 → Nat := fun i => if i = 1 then 8 else 0

/-- A concrete powered driver state: power on, ALS enabled, and the
saturation ceiling of a single integration cycle (`1025`). -/
def poweredState : SensorState :=
  ⟨{ initialConfiguration with
      enabled := { initialConfiguration.enabled with PON := true, AEN := true } },
    1025⟩

/-- The stored proximity persistence mirror is absent or holds a value in
`[0, 15]`.  Every reachable driver state satisfies this: the field is
only ever stored after the `0 ≤ p ≤ 15` range check. -/
def ProxMirrorOK (c : Configuration) : Prop :=
  c.proximityThresholdPersistence = none ∨
    ∃ v, c.proximityThresholdPersistence = some v ∧ 0 ≤ v ∧ v ≤ 15

/-! Helper predicates describing which bus operations the tail of the
`configure` block chain (from the named block onward) may append, each
guarded by the presence of the options that control it. -/

def opsEnable (o : Options) (op : BusOp) : Prop :=
  (o.«on».isSome ∨ o.enableALS.isSome ∨ o.alsThresholdLow.isSome ∨ o.alsThresholdHigh.isSome) ∧
    ∃ v, op = BusOp.writeUint8 Register.ENABLE v

def opsAien (o : Options) (op : BusOp) : Prop :=
  ((o.alsThresholdLow.isSome ∨ o.alsThresholdHigh.isSome) ∧ op = BusOp.readUint8 0xE7) ∨
    opsEnable o op

def opsPers (o : Options) (op : BusOp) : Prop :=
  ((o.proximityThresholdPersistence.isSome ∨ o.alsThresholdPersistence.isSome) ∧
    ∃ v, op = BusOp.writeUint8 Register.PERS v) ∨ opsAien o op

def opsHigh (o : Options) (op : BusOp) : Prop :=
  (o.alsThresholdHigh.isSome ∧ ∃ v, op = BusOp.writeUint16 Register.AIHTL v) ∨ opsPers o op

def opsLow (o : Options) (op : BusOp) : Prop :=
  (o.alsThresholdLow.isSome ∧ ∃ v, op = BusOp.writeUint16 Register.AILTL v) ∨ opsHigh o op

def opsInteg (o : Options) (op : BusOp) : Prop :=
  (o.alsIntegrationCycles.isSome ∧ ∃ v, op = BusOp.writeUint8 Register.ATIME v) ∨ opsLow o op

def opsConfigure (o : Options) (op : BusOp) : Prop :=
  ((o.alsGain.isSome ∨ o.proximityGain.isSome) ∧
    ∃ v, op = BusOp.writeUint8 Register.CONTROLONE v) ∨ opsInteg o op

/-! Helper lemmas: how each `configure` block transforms the mirror. -/

lemma mergeOptions_fixed (o : Options) (c : Configuration) :
    (mergeOptions o c).alsIntegrationCycles = c.alsIntegrationCycles ∧
    (mergeOptions o c).alsThresholdLow = c.alsThresholdLow ∧
    (mergeOptions o c).alsThresholdHigh = c.alsThresholdHigh ∧
    (mergeOptions o c).alsThresholdPersistence = c.alsThresholdPersistence ∧
    (mergeOptions o c).proximityThresholdPersistence = c.proximityThresholdPersistence ∧
    (mergeOptions o c).enabled.GEN = c.enabled.GEN ∧
    (mergeOptions o c).enabled.PIEN = c.enabled.PIEN ∧
    (mergeOptions o c).enabled.AIEN = c.enabled.AIEN ∧
    (mergeOptions o c).enabled.WEN = c.enabled.WEN ∧
    (mergeOptions o c).enabled.PEN = c.enabled.PEN := by
  unfold mergeOptions
  cases o.enableALS <;> cases o.«on» <;> cases o.alsGain <;> cases o.proximityGain <;>
    exact ⟨rfl, rfl, rfl, rfl, rfl, rfl, rfl, rfl, rfl, rfl⟩

lemma mergeOptions_alsGain_none (o : Options) (c : Configuration)
    (h : o.alsGain = none) : (mergeOptions o c).alsGain = c.alsGain := by
  unfold mergeOptions
  simp only [h]
  cases o.enableALS <;> cases o.«on» <;> cases o.proximityGain <;> rfl

lemma mergeOptions_proximityGain_none (o : Options) (c : Configuration)
    (h : o.proximityGain = none) : (mergeOptions o c).proximityGain = c.proximityGain := by
  unfold mergeOptions
  simp only [h]
  cases o.enableALS <;> cases o.«on» <;> cases o.alsGain <;> rfl

lemma mergeOptions_AEN_none (o : Options) (c : Configuration)
    (h : o.enableALS = none) : (mergeOptions o c).enabled.AEN = c.enabled.AEN := by
  unfold mergeOptions
  simp only [h]
  cases o.«on» <;> cases o.alsGain <;> cases o.proximityGain <;> rfl

lemma mergeOptions_PON_none (o : Options) (c : Configuration)
    (h : o.«on» = none) : (mergeOptions o c).enabled.PON = c.enabled.PON := by
  unfold mergeOptions
  simp only [h]
  cases o.enableALS <;> cases o.alsGain <;> cases o.proximityGain <;> rfl

lemma state_enableWrite (o : Options) (c : Configuration) (mc : Int) (t : List BusOp) :
    (configureEnableWrite o c mc t).state = ⟨c, mc⟩ := by
  unfold configureEnableWrite
  split_ifs <;> rfl

lemma state_aienUpdate (o : Options) (c : Configuration) (mc : Int) (t : List BusOp) :
    ∃ b, (configureAienUpdate o c mc t).state =
      ⟨{ c with enabled := { c.enabled with AIEN := b } }, mc⟩ := by
  simp only [configureAienUpdate]
  split_ifs with h1 h2
  · exact ⟨false, by rw [state_enableWrite]⟩
  · exact ⟨true, by rw [state_enableWrite]⟩
  · exact ⟨c.enabled.AIEN, by rw [state_enableWrite]⟩

lemma state_persProx (o : Options) (c : Configuration) (mc : Int) (t : List BusOp) (a : Int) :
    ∃ pp b, (configurePersistenceProx o c mc t a).state =
      ⟨{ c with proximityThresholdPersistence := pp,
                enabled := { c.enabled with AIEN := b } }, mc⟩ ∧
      (o.proximityThresholdPersistence = none → pp = c.proximityThresholdPersistence) := by
  rcases hp : o.proximityThresholdPersistence with _ | p
  · obtain ⟨b, hb⟩ := state_aienUpdate o c mc
      (t ++ [BusOp.writeUint8 Register.PERS
        (Int.lor (storedPpers c.proximityThresholdPersistence) a)])
    exact ⟨c.proximityThresholdPersistence, b, by simp only [configurePersistenceProx, hp]; exact hb,
      fun _ => rfl⟩
  · simp only [configurePersistenceProx, hp]
    split_ifs with hr
    · exact ⟨c.proximityThresholdPersistence, c.enabled.AIEN, rfl, fun _ => rfl⟩
    · obtain ⟨b, hb⟩ := state_aienUpdate o { c with proximityThresholdPersistence := some p } mc
        (t ++ [BusOp.writeUint8 Register.PERS (Int.lor (storedPpers (some p)) a)])
      exact ⟨some p, b, hb, fun h => by simp [hp] at h⟩

lemma state_pers (o : Options) (c : Configuration) (mc : Int) (t : List BusOp) :
    ∃ ap pp b, (configurePersistence o c mc t).state =
      ⟨{ c with alsThresholdPersistence := ap, proximityThresholdPersistence := pp,
                enabled := { c.enabled with AIEN := b } }, mc⟩ ∧
      (o.alsThresholdPersistence = none → ap = c.alsThresholdPersistence) ∧
      (o.proximityThresholdPersistence = none → pp = c.proximityThresholdPersistence) := by
  simp only [configurePersistence]
  split_ifs with hcond
  · rcases ha : o.alsThresholdPersistence with _ | cycles
    · simp only [ha]
      obtain ⟨pp, b, hst, hc⟩ := state_persProx o c mc t (storedApers c.alsThresholdPersistence)
      exact ⟨c.alsThresholdPersistence, pp, b, hst, fun _ => rfl, hc⟩
    · simp only [ha]
      rcases hap : apersFromCycles cycles with _ | apers
      · simp only [hap]
        exact ⟨c.alsThresholdPersistence, c.proximityThresholdPersistence, c.enabled.AIEN, rfl,
          fun _ => rfl, fun _ => rfl⟩
      · simp only [hap]
        obtain ⟨pp, b, hst, hc⟩ :=
          state_persProx o { c with alsThresholdPersistence := some cycles } mc t apers
        exact ⟨some cycles, pp, b, hst, fun h => by simp [ha] at h, hc⟩
  · obtain ⟨b, hb⟩ := state_aienUpdate o c mc t
    exact ⟨c.alsThresholdPersistence, c.proximityThresholdPersistence, b, hb,
      fun _ => rfl, fun _ => rfl⟩

lemma state_high (o : Options) (c : Configuration) (mc : Int) (t : List BusOp) :
    ∃ th ap pp b, (configureThresholdHigh o c mc t).state =
      ⟨{ c with alsThresholdHigh := th, alsThresholdPersistence := ap,
                proximityThresholdPersistence := pp,
                enabled := { c.enabled with AIEN := b } }, mc⟩ ∧
      (o.alsThresholdHigh = none → th = c.alsThresholdHigh) ∧
      (o.alsThresholdPersistence = none → ap = c.alsThresholdPersistence) ∧
      (o.proximityThresholdPersistence = none → pp = c.proximityThresholdPersistence) := by
  rcases hv : o.alsThresholdHigh with _ | v
  · simp only [configureThresholdHigh, hv]
    obtain ⟨ap, pp, b, hst, h1, h2⟩ := state_pers o c mc t
    exact ⟨c.alsThresholdHigh, ap, pp, b, hst, fun _ => rfl, h1, h2⟩
  · simp only [configureThresholdHigh, hv]
    split_ifs with hr
    · exact ⟨c.alsThresholdHigh, c.alsThresholdPersistence, c.proximityThresholdPersistence,
        c.enabled.AIEN, rfl, fun _ => rfl, fun _ => rfl, fun _ => rfl⟩
    · obtain ⟨ap, pp, b, hst, h1, h2⟩ := state_pers o { c with alsThresholdHigh := some v } mc
        (t ++ [BusOp.writeUint16 Register.AIHTL v])
      exact ⟨some v, ap, pp, b, hst, fun h => by simp [hv] at h, h1, h2⟩

lemma state_low (o : Options) (c : Configuration) (mc : Int) (t : List BusOp) :
    ∃ tl th ap pp b, (configureThresholdLow o c mc t).state =
      ⟨{ c with alsThresholdLow := tl, alsThresholdHigh := th, alsThresholdPersistence := ap,
                proximityThresholdPersistence := pp,
                enabled := { c.enabled with AIEN := b } }, mc⟩ ∧
      (o.alsThresholdLow = none → tl = c.alsThresholdLow) ∧
      (o.alsThresholdHigh = none → th = c.alsThresholdHigh) ∧
      (o.alsThresholdPersistence = none → ap = c.alsThresholdPersistence) ∧
      (o.proximityThresholdPersistence = none → pp = c.proximityThresholdPersistence) := by
  rcases hv : o.alsThresholdLow with _ | v
  · simp only [configureThresholdLow, hv]
    obtain ⟨th, ap, pp, b, hst, h1, h2, h3⟩ := state_high o c mc t
    exact ⟨c.alsThresholdLow, th, ap, pp, b, hst, fun _ => rfl, h1, h2, h3⟩
  · simp only [configureThresholdLow, hv]
    split_ifs with hr
    · exact ⟨c.alsThresholdLow, c.alsThresholdHigh, c.alsThresholdPersistence,
        c.proximityThresholdPersistence, c.enabled.AIEN, rfl, fun _ => rfl, fun _ => rfl,
        fun _ => rfl, fun _ => rfl⟩
    · obtain ⟨th, ap, pp, b, hst, h1, h2, h3⟩ := state_high o { c with alsThresholdLow := some v }
        mc (t ++ [BusOp.writeUint16 Register.AILTL v])
      exact ⟨some v, th, ap, pp, b, hst, fun h => by simp [hv] at h, h1, h2, h3⟩

lemma state_integ (o : Options) (c : Configuration) (mc : Int) (t : List BusOp) :
    ∃ cyc mc2 tl th ap pp b, (configureIntegration o c mc t).state =
      ⟨{ c with alsIntegrationCycles := cyc, alsThresholdLow := tl, alsThresholdHigh := th,
                alsThresholdPersistence := ap, proximityThresholdPersistence := pp,
                enabled := { c.enabled with AIEN := b } }, mc2⟩ ∧
      (o.alsIntegrationCycles = none → cyc = c.alsIntegrationCycles ∧ mc2 = mc) ∧
      (o.alsThresholdLow = none → tl = c.alsThresholdLow) ∧
      (o.alsThresholdHigh = none → th = c.alsThresholdHigh) ∧
      (o.alsThresholdPersistence = none → ap = c.alsThresholdPersistence) ∧
      (o.proximityThresholdPersistence = none → pp = c.proximityThresholdPersistence) := by
  rcases hv : o.alsIntegrationCycles with _ | cycles
  · simp only [configureIntegration, hv]
    obtain ⟨tl, th, ap, pp, b, hst, h1, h2, h3, h4⟩ := state_low o c mc t
    exact ⟨c.alsIntegrationCycles, mc, tl, th, ap, pp, b, hst, fun _ => ⟨rfl, rfl⟩,
      h1, h2, h3, h4⟩
  · simp only [configureIntegration, hv]
    split_ifs with hr
    · exact ⟨c.alsIntegrationCycles, mc, c.alsThresholdLow, c.alsThresholdHigh,
        c.alsThresholdPersistence, c.proximityThresholdPersistence, c.enabled.AIEN, rfl,
        fun _ => ⟨rfl, rfl⟩, fun _ => rfl, fun _ => rfl, fun _ => rfl, fun _ => rfl⟩
    · obtain ⟨tl, th, ap, pp, b, hst, h1, h2, h3, h4⟩ :=
        state_low o { c with alsIntegrationCycles := cycles } (1025 * cycles)
          (t ++ [BusOp.writeUint8 Register.ATIME (256 - cycles)])
      exact ⟨cycles, 1025 * cycles, tl, th, ap, pp, b, hst, fun h => by simp [hv] at h,
        h1, h2, h3, h4⟩

lemma state_configure (s : SensorState) (o : Options) :
    ∃ cyc mc2 tl th ap pp b, (configure s o).state =
      ⟨{ mergeOptions o s.configuration with
          alsIntegrationCycles := cyc, alsThresholdLow := tl, alsThresholdHigh := th,
          alsThresholdPersistence := ap, proximityThresholdPersistence := pp,
          enabled := { (mergeOptions o s.configuration).enabled with AIEN := b } }, mc2⟩ ∧
      (o.alsIntegrationCycles = none →
        cyc = (mergeOptions o s.configuration).alsIntegrationCycles ∧ mc2 = s.maxCount) ∧
      (o.alsThresholdLow = none → tl = (mergeOptions o s.configuration).alsThresholdLow) ∧
      (o.alsThresholdHigh = none → th = (mergeOptions o s.configuration).alsThresholdHigh) ∧
      (o.alsThresholdPersistence = none →
        ap = (mergeOptions o s.configuration).alsThresholdPersistence) ∧
      (o.proximityThresholdPersistence = none →
        pp = (mergeOptions o s.configuration).proximityThresholdPersistence) := by
  simp only [configure]
  split_ifs with hg
  · rcases hA : alsGainField (mergeOptions o s.configuration).alsGain with _ | fA
    · simp only [hA]
      exact ⟨(mergeOptions o s.configuration).alsIntegrationCycles, s.maxCount,
        (mergeOptions o s.configuration).alsThresholdLow,
        (mergeOptions o s.configuration).alsThresholdHigh,
        (mergeOptions o s.configuration).alsThresholdPersistence,
        (mergeOptions o s.configuration).proximityThresholdPersistence,
        (mergeOptions o s.configuration).enabled.AIEN, rfl, fun _ => ⟨rfl, rfl⟩,
        fun _ => rfl, fun _ => rfl, fun _ => rfl, fun _ => rfl⟩
    · simp only [hA]
      rcases hP : proximityGainField (mergeOptions o s.configuration).proximityGain with _ | fP
      · simp only [hP]
        exact ⟨(mergeOptions o s.configuration).alsIntegrationCycles, s.maxCount,
          (mergeOptions o s.configuration).alsThresholdLow,
          (mergeOptions o s.configuration).alsThresholdHigh,
          (mergeOptions o s.configuration).alsThresholdPersistence,
          (mergeOptions o s.configuration).proximityThresholdPersistence,
          (mergeOptions o s.configuration).enabled.AIEN, rfl, fun _ => ⟨rfl, rfl⟩,
          fun _ => rfl, fun _ => rfl, fun _ => rfl, fun _ => rfl⟩
      · simp only [hP]
        exact state_integ o (mergeOptions o s.configuration) s.maxCount
          [BusOp.writeUint8 Register.CONTROLONE (Int.lor (Int.lor 0 fA) fP)]
  · exact state_integ o (mergeOptions o s.configuration) s.maxCount []

lemma memTrace_enableWrite (o : Options) (c : Configuration) (mc : Int) (t : List BusOp)
    (op : BusOp) (h : op ∈ (configureEnableWrite o c mc t).trace) :
    op ∈ t ∨ opsEnable o op := by
  unfold configureEnableWrite at h
  split_ifs at h with hc
  · simp only [List.mem_append, List.mem_singleton] at h
    rcases h with h | h
    · exact Or.inl h
    · exact Or.inr ⟨hc, _, h⟩
  · exact Or.inl h

lemma memTrace_aienUpdate (o : Options) (c : Configuration) (mc : Int) (t : List BusOp)
    (op : BusOp) (h : op ∈ (configureAienUpdate o c mc t).trace) :
    op ∈ t ∨ opsAien o op := by
  simp only [configureAienUpdate] at h
  split_ifs at h with hc hc2
  all_goals
    rcases memTrace_enableWrite _ _ _ _ _ h with h2 | h2
  · rcases List.mem_append.mp h2 with h3 | h3
    · exact Or.inl h3
    · exact Or.inr (Or.inl ⟨hc, List.mem_singleton.mp h3⟩)
  · exact Or.inr (Or.inr h2)
  · rcases List.mem_append.mp h2 with h3 | h3
    · exact Or.inl h3
    · exact Or.inr (Or.inl ⟨hc, List.mem_singleton.mp h3⟩)
  · exact Or.inr (Or.inr h2)
  · exact Or.inl h2
  · exact Or.inr (Or.inr h2)

lemma memTrace_persProx (o : Options) (c : Configuration) (mc : Int) (t : List BusOp)
    (a : Int) (op : BusOp)
    (hcond : o.proximityThresholdPersistence.isSome ∨ o.alsThresholdPersistence.isSome)
    (h : op ∈ (configurePersistenceProx o c mc t a).trace) :
    op ∈ t ∨ opsPers o op := by
  rcases hp : o.proximityThresholdPersistence with _ | p
  all_goals simp only [configurePersistenceProx, hp] at h
  · rcases memTrace_aienUpdate _ _ _ _ _ h with h2 | h2
    · rcases List.mem_append.mp h2 with h3 | h3
      · exact Or.inl h3
      · exact Or.inr (Or.inl ⟨hcond, _, List.mem_singleton.mp h3⟩)
    · exact Or.inr (Or.inr h2)
  · split_ifs at h with hr
    · exact Or.inl h
    · rcases memTrace_aienUpdate _ _ _ _ _ h with h2 | h2
      · rcases List.mem_append.mp h2 with h3 | h3
        · exact Or.inl h3
        · exact Or.inr (Or.inl ⟨hcond, _, List.mem_singleton.mp h3⟩)
      · exact Or.inr (Or.inr h2)

lemma memTrace_pers (o : Options) (c : Configuration) (mc : Int) (t : List BusOp)
    (op : BusOp) (h : op ∈ (configurePersistence o c mc t).trace) :
    op ∈ t ∨ opsPers o op := by
  simp only [configurePersistence] at h
  split_ifs at h with hcond
  · rcases ha : o.alsThresholdPersistence with _ | cycles
    all_goals simp only [ha] at h
    · exact memTrace_persProx _ _ _ _ _ _ hcond h
    · rcases hap : apersFromCycles cycles with _ | apers
      all_goals simp only [hap] at h
      · exact Or.inl h
      · exact memTrace_persProx _ _ _ _ _ _ hcond h
  · rcases memTrace_aienUpdate _ _ _ _ _ h with h2 | h2
    · exact Or.inl h2
    · exact Or.inr (Or.inr h2)

lemma memTrace_high (o : Options) (c : Configuration) (mc : Int) (t : List BusOp)
    (op : BusOp) (h : op ∈ (configureThresholdHigh o c mc t).trace) :
    op ∈ t ∨ opsHigh o op := by
  rcases hv : o.alsThresholdHigh with _ | v
  all_goals simp only [configureThresholdHigh, hv] at h
  · rcases memTrace_pers _ _ _ _ _ h with h2 | h2
    · exact Or.inl h2
    · exact Or.inr (Or.inr h2)
  · split_ifs at h with hr
    · exact Or.inl h
    · rcases memTrace_pers _ _ _ _ _ h with h2 | h2
      · rcases List.mem_append.mp h2 with h3 | h3
        · exact Or.inl h3
        · exact Or.inr (Or.inl ⟨by simp [hv], _, List.mem_singleton.mp h3⟩)
      · exact Or.inr (Or.inr h2)

lemma memTrace_low (o : Options) (c : Configuration) (mc : Int) (t : List BusOp)
    (op : BusOp) (h : op ∈ (configureThresholdLow o c mc t).trace) :
    op ∈ t ∨ opsLow o op := by
  rcases hv : o.alsThresholdLow with _ | v
  all_goals simp only [configureThresholdLow, hv] at h
  · rcases memTrace_high _ _ _ _ _ h with h2 | h2
    · exact Or.inl h2
    · exact Or.inr (Or.inr h2)
  · split_ifs at h with hr
    · exact Or.inl h
    · rcases memTrace_high _ _ _ _ _ h with h2 | h2
      · rcases List.mem_append.mp h2 with h3 | h3
        · exact Or.inl h3
        · exact Or.inr (Or.inl ⟨by simp [hv], _, List.mem_singleton.mp h3⟩)
      · exact Or.inr (Or.inr h2)

lemma memTrace_integ (o : Options) (c : Configuration) (mc : Int) (t : List BusOp)
    (op : BusOp) (h : op ∈ (configureIntegration o c mc t).trace) :
    op ∈ t ∨ opsInteg o op := by
  rcases hv : o.alsIntegrationCycles with _ | cycles
  all_goals simp only [configureIntegration, hv] at h
  · rcases memTrace_low _ _ _ _ _ h with h2 | h2
    · exact Or.inl h2
    · exact Or.inr (Or.inr h2)
  · split_ifs at h with hr
    · exact Or.inl h
    · rcases memTrace_low _ _ _ _ _ h with h2 | h2
      · rcases List.mem_append.mp h2 with h3 | h3
        · exact Or.inl h3
        · exact Or.inr (Or.inl ⟨by simp [hv], _, List.mem_singleton.mp h3⟩)
      · exact Or.inr (Or.inr h2)

lemma memTrace_configure (s : SensorState) (o : Options) (op : BusOp)
    (h : op ∈ (configure s o).trace) : opsConfigure o op := by
  simp only [configure] at h
  split_ifs at h with hg
  · rcases hA : alsGainField (mergeOptions o s.configuration).alsGain with _ | fA
    all_goals simp only [hA] at h
    · cases h
    · rcases hP : proximityGainField (mergeOptions o s.configuration).proximityGain with _ | fP
      all_goals simp only [hP] at h
      · cases h
      · rcases memTrace_integ _ _ _ _ _ h with h2 | h2
        · exact Or.inl ⟨hg, _, List.mem_singleton.mp h2⟩
        · exact Or.inr h2
  · rcases memTrace_integ _ _ _ _ _ h with h2 | h2
    · cases h2
    · exact Or.inr h2

/-! Helper lemmas for the persistence encoding and the packed PERS byte. -/

lemma apersFromCycles_low (p : Int) (h : 0 ≤ p ∧ p ≤ 3) : apersFromCycles p = some p := by
  unfold apersFromCycles
  rw [if_neg (by omega), if_neg (by omega), if_pos (by omega)]

lemma apersFromCycles_mult5 (p : Int) (h : 5 ≤ p ∧ p ≤ 60 ∧ p % 5 = 0) :
    apersFromCycles p = some (p / 5 + 3) := by
  unfold apersFromCycles
  rw [if_neg (by omega), if_neg (by omega), if_neg (by omega)]

lemma apersFromCycles_invalid (p : Int) (h1 : ¬(0 ≤ p ∧ p ≤ 3))
    (h2 : ¬(5 ≤ p ∧ p ≤ 60 ∧ p % 5 = 0)) : apersFromCycles p = none := by
  unfold apersFromCycles
  split_ifs with hA hB hC
  · rfl
  · rfl
  · exact absurd (show (0 : Int) ≤ p ∧ p ≤ 3 by omega) h1
  · exact absurd (show (5 : Int) ≤ p ∧ p ≤ 60 ∧ p % 5 = 0 by omega) h2

lemma storedPpers_shape (c : Configuration) (h : ProxMirrorOK c) :
    ∃ v : Int, 0 ≤ v ∧ v ≤ 15 ∧ storedPpers c.proximityThresholdPersistence = v <<< 4 := by
  rcases h with h | ⟨v, hv, h0, h15⟩
  · refine ⟨0, le_refl 0, by norm_num, ?_⟩
    rw [h]
    rfl
  · refine ⟨v, h0, h15, ?_⟩
    rw [hv]
    rfl

set_option maxHeartbeats 1000000 in
lemma lorNibble (v a : Int) (h0 : 0 ≤ v) (h1 : v ≤ 15) (h2 : 0 ≤ a) (h3 : a ≤ 15) :
    Int.lor (v <<< 4) a % 16 = a := by
  interval_cases v <;> interval_cases a <;> decide

/-! Helper lemmas: the derived AIEN flag after each block of the chain,
on the error-free paths. -/

lemma aien_aienUpdate (o : Options) (c : Configuration) (mc : Int) (t : List BusOp)
    (ht : o.alsThresholdLow.isSome ∨ o.alsThresholdHigh.isSome) :
    ((configureAienUpdate o c mc t).state.configuration.enabled.AIEN = false ↔
      ((configureAienUpdate o c mc t).state.configuration.alsThresholdLow = some 0 ∧
       (configureAienUpdate o c mc t).state.configuration.alsThresholdHigh = some 0xFFFF)) := by
  simp only [configureAienUpdate, if_pos ht]
  split_ifs with hc
  · rw [state_enableWrite]
    simp [hc.1, hc.2]
  · rw [state_enableWrite]
    simp only []
    constructor
    · intro hfalse
      exact absurd hfalse (by simp)
    · intro hpair
      exact absurd ⟨hpair.2, hpair.1⟩ hc

lemma aien_persProx (o : Options) (c : Configuration) (mc : Int) (t : List BusOp) (a : Int)
    (ht : o.alsThresholdLow.isSome ∨ o.alsThresholdHigh.isSome)
    (he : (configurePersistenceProx o c mc t a).error = none) :
    ((configurePersistenceProx o c mc t a).state.configuration.enabled.AIEN = false ↔
      ((configurePersistenceProx o c mc t a).state.configuration.alsThresholdLow = some 0 ∧
       (configurePersistenceProx o c mc t a).state.configuration.alsThresholdHigh = some 0xFFFF)) := by
  rcases hp : o.proximityThresholdPersistence with _ | p
  all_goals simp only [configurePersistenceProx, hp] at he ⊢
  · exact aien_aienUpdate _ _ _ _ ht
  · split_ifs at he ⊢ with hr
    exact aien_aienUpdate _ _ _ _ ht

lemma aien_pers (o : Options) (c : Configuration) (mc : Int) (t : List BusOp)
    (ht : o.alsThresholdLow.isSome ∨ o.alsThresholdHigh.isSome)
    (he : (configurePersistence o c mc t).error = none) :
    ((configurePersistence o c mc t).state.configuration.enabled.AIEN = false ↔
      ((configurePersistence o c mc t).state.configuration.alsThresholdLow = some 0 ∧
       (configurePersistence o c mc t).state.configuration.alsThresholdHigh = some 0xFFFF)) := by
  simp only [configurePersistence] at he ⊢
  split_ifs at he ⊢ with hcond
  · rcases ha : o.alsThresholdPersistence with _ | cycles
    all_goals simp only [ha] at he ⊢
    · exact aien_persProx _ _ _ _ _ ht he
    · rcases hap : apersFromCycles cycles with _ | apers
      all_goals simp only [hap] at he ⊢
      · exact Option.noConfusion he
      · exact aien_persProx _ _ _ _ _ ht he
  · exact aien_aienUpdate _ _ _ _ ht

lemma aien_high (o : Options) (c : Configuration) (mc : Int) (t : List BusOp)
    (ht : o.alsThresholdLow.isSome ∨ o.alsThresholdHigh.isSome)
    (he : (configureThresholdHigh o c mc t).error = none) :
    ((configureThresholdHigh o c mc t).state.configuration.enabled.AIEN = false ↔
      ((configureThresholdHigh o c mc t).state.configuration.alsThresholdLow = some 0 ∧
       (configureThresholdHigh o c mc t).state.configuration.alsThresholdHigh = some 0xFFFF)) := by
  rcases hv : o.alsThresholdHigh with _ | v
  all_goals simp only [configureThresholdHigh, hv] at he ⊢
  · exact aien_pers _ _ _ _ ht he
  · split_ifs at he ⊢ with hr
    exact aien_pers _ _ _ _ ht he

lemma aien_low (o : Options) (c : Configuration) (mc : Int) (t : List BusOp)
    (ht : o.alsThresholdLow.isSome ∨ o.alsThresholdHigh.isSome)
    (he : (configureThresholdLow o c mc t).error = none) :
    ((configureThresholdLow o c mc t).state.configuration.enabled.AIEN = false ↔
      ((configureThresholdLow o c mc t).state.configuration.alsThresholdLow = some 0 ∧
       (configureThresholdLow o c mc t).state.configuration.alsThresholdHigh = some 0xFFFF)) := by
  rcases hv : o.alsThresholdLow with _ | v
  all_goals simp only [configureThresholdLow, hv] at he ⊢
  · exact aien_high _ _ _ _ ht he
  · split_ifs at he ⊢ with hr
    exact aien_high _ _ _ _ ht he

lemma aien_integ (o : Options) (c : Configuration) (mc : Int) (t : List BusOp)
    (ht : o.alsThresholdLow.isSome ∨ o.alsThresholdHigh.isSome)
    (he : (configureIntegration o c mc t).error = none) :
    ((configureIntegration o c mc t).state.configuration.enabled.AIEN = false ↔
      ((configureIntegration o c mc t).state.configuration.alsThresholdLow = some 0 ∧
       (configureIntegration o c mc t).state.configuration.alsThresholdHigh = some 0xFFFF)) := by
  rcases hv : o.alsIntegrationCycles with _ | cycles
  all_goals simp only [configureIntegration, hv] at he ⊢
  · exact aien_low _ _ _ _ ht he
  · split_ifs at he ⊢ with hr
    exact aien_low _ _ _ _ ht he

/-! Evaluation lemmas: `configure` on option bags that carry a single
block's options, with the value left symbolic. -/

lemma configure_gainsOnly (s : SensorState) (gA gP : Int) :
    configure s { alsGain := some gA, proximityGain := some gP } =
      match alsGainField gA with
      | none => ⟨some ConfigError.invalidAlsGain,
          ⟨{ s.configuration with alsGain := gA, proximityGain := gP }, s.maxCount⟩, []⟩
      | some fA =>
        match proximityGainField gP with
        | none => ⟨some ConfigError.invalidProximityGain,
            ⟨{ s.configuration with alsGain := gA, proximityGain := gP }, s.maxCount⟩, []⟩
        | some fP => ⟨none,
            ⟨{ s.configuration with alsGain := gA, proximityGain := gP }, s.maxCount⟩,
            [BusOp.writeUint8 Register.CONTROLONE (Int.lor (Int.lor 0 fA) fP)]⟩ := by
  rcases hA : alsGainField gA with _ | fA <;>
    rcases hP : proximityGainField gP with _ | fP <;>
    simp [configure, mergeOptions, configureIntegration, configureThresholdLow,
      configureThresholdHigh, configurePersistence, configurePersistenceProx,
      configureAienUpdate, configureEnableWrite, hA, hP]

lemma configure_cyclesOnly (s : SensorState) (cc : Int) :
    configure s { alsIntegrationCycles := some cc } =
      if cc > 256 ∨ cc < 0 then
        ⟨some ConfigError.invalidAlsIntegrationCycles, ⟨s.configuration, s.maxCount⟩, []⟩
      else
        ⟨none, ⟨{ s.configuration with alsIntegrationCycles := cc }, 1025 * cc⟩,
          [BusOp.writeUint8 Register.ATIME (256 - cc)]⟩ := by
  split_ifs with hr <;>
    simp [configure, mergeOptions, configureIntegration, configureThresholdLow,
      configureThresholdHigh, configurePersistence, configurePersistenceProx,
      configureAienUpdate, configureEnableWrite, hr]

lemma configure_alsPersOnly (s : SensorState) (p : Int) :
    configure s { alsThresholdPersistence := some p } =
      match apersFromCycles p with
      | none => ⟨some ConfigError.invalidAlsThresholdPersistence,
          ⟨s.configuration, s.maxCount⟩, []⟩
      | some a => ⟨none,
          ⟨{ s.configuration with alsThresholdPersistence := some p }, s.maxCount⟩,
          [BusOp.writeUint8 Register.PERS
            (Int.lor (storedPpers s.configuration.proximityThresholdPersistence) a)]⟩ := by
  rcases hap : apersFromCycles p with _ | a <;>
    simp [configure, mergeOptions, configureIntegration, configureThresholdLow,
      configureThresholdHigh, configurePersistence, configurePersistenceProx,
      configureAienUpdate, configureEnableWrite, hap]

/-! The claims. -/

/-- Claim C7: for every driver state whose stored power-on flag (PON) is
false, `sample()` returns no result (`undefined`), regardless of the
contents of the chip's status register. -/
theorem sample_powerOff_returns_none (s : SensorState) (status : Nat) (data : Fin 8 → Nat)
    (h : s.configuration.enabled.PON = false) :
    (sample s status data).result = none := by
  simp [sample, h]

/-- Claim C7 witness: the freshly-initialized mirror has PON false, and
`sample` on it returns no result even with an all-ones status byte. -/
theorem sample_powerOff_returns_none_witness :
    initialState.configuration.enabled.PON = false ∧
    (sample initialState 255 zeroBlock).result = none :=
  ⟨rfl, sample_powerOff_returns_none initialState 255 zeroBlock rfl⟩

/-- Claim C10: for every driver state whose stored power-on flag (PON) is
false, `sample()` performs no bus transaction at all — it returns before
even the status register read. -/
theorem sample_powerOff_no_bus_ops (s : SensorState) (status : Nat) (data : Fin 8 → Nat)
    (h : s.configuration.enabled.PON = false) :
    (sample s status data).trace = [] := by
  simp [sample, h]

/-- Claim C10 witness: a powered-off sample issues no bus operation. -/
theorem sample_powerOff_no_bus_ops_witness :
    initialState.configuration.enabled.PON = false ∧
    (sample initialState 7 zeroBlock).trace = [] :=
  ⟨rfl, sample_powerOff_no_bus_ops initialState 7 zeroBlock rfl⟩

/-- Claim C8: `close()` is idempotent — after one `close()` the second
call performs no transport operation at all; and a first `close()` on a
partially-initialized driver with no alert monitor only disables the
device and releases the bus. -/
theorem close_idempotent :
    (∀ r : DriverResources, close (close r).1 = (⟨false, false⟩, [])) ∧
    close ⟨true, false⟩ =
      (⟨false, false⟩, [BusOp.writeUint8 Register.ENABLE 0x00, BusOp.ioClose]) :=
  ⟨fun _ => rfl, rfl⟩

/-- Claim C9: after `configure({alsGain: 4, proximityGain: 8})` the
configuration accessor reports gains 4 and 8, the call succeeds, and the
single packed CONTROLONE write carries `0b1101` (ALS code `0b01` in bits
0-1, proximity code `0b11` in bits 2-3). -/
theorem configure_gain_roundtrip (s : SensorState) :
    (configure s { alsGain := some 4, proximityGain := some 8 }).error = none ∧
    (configurationSnapshot (configure s { alsGain := some 4, proximityGain := some 8 }).state).alsGain = 4 ∧
    (configurationSnapshot (configure s { alsGain := some 4, proximityGain := some 8 }).state).proximityGain = 8 ∧
    (configure s { alsGain := some 4, proximityGain := some 8 }).trace
      = [BusOp.writeUint8 Register.CONTROLONE 0b1101] :=
  ⟨rfl, rfl, rfl, rfl⟩

/-- Claim C1 counterexample: `configure({alsGain: 5})` raises the
configuration error and issues no CONTROLONE write, but the stored
`alsGain` mirror — 1 before the call — already holds the invalid 5 when
the error propagates, refuting "the stored gains are left unchanged". -/
theorem configure_invalidGain_mirror_mutation_cex :
    initialState.configuration.alsGain = 1 ∧
    (configure initialState { alsGain := some 5 }).error = some ConfigError.invalidAlsGain ∧
    (configure initialState { alsGain := some 5 }).trace = [] ∧
    (configure initialState { alsGain := some 5 }).state.configuration.alsGain = 5 := by
  decide

/-- Claim C1 (amended): when `alsGain` is present with a value outside
{1,4,16,64}, or `alsGain` is legal and `proximityGain` is present with a
value outside {1,2,4,8}, `configure` raises a configuration error and no
CONTROLONE write (nor any other bus operation) is issued — the shared
packed write is aborted for both channels — but the configuration mirror
already holds the supplied gain values when the error propagates. -/
theorem configure_invalidGain_aborts_write_updates_mirror
    (s : SensorState) (gA gP : Int)
    (h : ¬(gA = 1 ∨ gA = 4 ∨ gA = 16 ∨ gA = 64) ∨
      ((gA = 1 ∨ gA = 4 ∨ gA = 16 ∨ gA = 64) ∧ ¬(gP = 1 ∨ gP = 2 ∨ gP = 4 ∨ gP = 8))) :
    ((configure s { alsGain := some gA, proximityGain := some gP }).error
        = some ConfigError.invalidAlsGain ∨
      (configure s { alsGain := some gA, proximityGain := some gP }).error
        = some ConfigError.invalidProximityGain) ∧
    (configure s { alsGain := some gA, proximityGain := some gP }).trace = [] ∧
    (configure s { alsGain := some gA, proximityGain := some gP }).state.configuration.alsGain = gA ∧
    (configure s { alsGain := some gA, proximityGain := some gP }).state.configuration.proximityGain = gP := by
  rw [configure_gainsOnly]
  rcases h with h | ⟨hA, hP⟩
  · have h1 : alsGainField gA = none := by
      push_neg at h
      simp [alsGainField, h.1, h.2.1, h.2.2.1, h.2.2.2]
    rw [h1]
    exact ⟨Or.inl rfl, rfl, rfl, rfl⟩
  · have h2 : proximityGainField gP = none := by
      push_neg at hP
      simp [proximityGainField, hP.1, hP.2.1, hP.2.2.1, hP.2.2.2]
    have h1 : ∃ fA, alsGainField gA = some fA := by
      rcases hA with h | h | h | h <;> subst h <;> exact ⟨_, rfl⟩
    obtain ⟨fA, hfA⟩ := h1
    rw [hfA, h2]
    exact ⟨Or.inr rfl, rfl, rfl, rfl⟩

/-- Claim C1 witness: `configure({alsGain: 5, proximityGain: 2})` errors
with no bus traffic while the mirror takes the supplied values. -/
theorem configure_invalidGain_aborts_write_updates_mirror_witness :
    ((configure initialState { alsGain := some 5, proximityGain := some 2 }).error
        = some ConfigError.invalidAlsGain ∨
      (configure initialState { alsGain := some 5, proximityGain := some 2 }).error
        = some ConfigError.invalidProximityGain) ∧
    (configure initialState { alsGain := some 5, proximityGain := some 2 }).trace = [] ∧
    (configure initialState { alsGain := some 5, proximityGain := some 2 }).state.configuration.alsGain = 5 ∧
    (configure initialState { alsGain := some 5, proximityGain := some 2 }).state.configuration.proximityGain = 2 :=
  configure_invalidGain_aborts_write_updates_mirror initialState 5 2 (Or.inl (by decide))

/-- Claim C2 counterexample: `alsIntegrationCycles = 0` lies outside
[1,256], yet `configure` accepts it (`> 256 || < 0` is the source's
check), writes `256` to ATIME and sets the saturation ceiling to 0,
refuting "every c outside [1,256] raises a configuration error". -/
theorem configure_integrationCycles_zero_accepted_cex :
    (configure initialState { alsIntegrationCycles := some 0 }).error = none ∧
    (configure initialState { alsIntegrationCycles := some 0 }).state.maxCount = 0 ∧
    (configure initialState { alsIntegrationCycles := some 0 }).trace
      = [BusOp.writeUint8 Register.ATIME 256] := by
  decide

/-- Claim C2 (amended): for every integer c in [0,256] (the source's
accepted range), `configure({alsIntegrationCycles: c})` succeeds, writes
`256 - c` to ATIME and sets the saturation ceiling to `1025 * c`; for
every c outside [0,256] it raises a configuration error and leaves the
whole mirror — integration register mirror and ceiling included —
unchanged, issuing no write. -/
theorem configure_integrationCycles_range (s : SensorState) (cc : Int) :
    ((0 ≤ cc ∧ cc ≤ 256) →
      (configure s { alsIntegrationCycles := some cc }).error = none ∧
      (configure s { alsIntegrationCycles := some cc }).state.configuration.alsIntegrationCycles = cc ∧
      (configure s { alsIntegrationCycles := some cc }).state.maxCount = 1025 * cc ∧
      (configure s { alsIntegrationCycles := some cc }).trace
        = [BusOp.writeUint8 Register.ATIME (256 - cc)]) ∧
    ((cc < 0 ∨ 256 < cc) →
      (configure s { alsIntegrationCycles := some cc }).error
        = some ConfigError.invalidAlsIntegrationCycles ∧
      (configure s { alsIntegrationCycles := some cc }).state = s ∧
      (configure s { alsIntegrationCycles := some cc }).trace = []) := by
  rw [configure_cyclesOnly]
  constructor
  · intro h
    rw [if_neg (by omega)]
    exact ⟨rfl, rfl, rfl, rfl⟩
  · intro h
    rw [if_pos (by omega)]
    exact ⟨rfl, rfl, rfl⟩

/-- Claim C2 witness: 10 cycles gives ATIME 246 and ceiling 10250. -/
theorem configure_integrationCycles_range_witness :
    (configure initialState { alsIntegrationCycles := some 10 }).error = none ∧
    (configure initialState { alsIntegrationCycles := some 10 }).state.configuration.alsIntegrationCycles = 10 ∧
    (configure initialState { alsIntegrationCycles := some 10 }).state.maxCount = 1025 * 10 ∧
    (configure initialState { alsIntegrationCycles := some 10 }).trace
      = [BusOp.writeUint8 Register.ATIME (256 - 10)] :=
  (configure_integrationCycles_range initialState 10).1 (by norm_num)

/-- Claim C3: for every integer p passed as `alsThresholdPersistence` (on
a state whose stored proximity persistence mirror is absent or in range,
as in every reachable state): p in {0,1,2,3} is encoded into the low
nibble of the PERS write as p itself; p a multiple of 5 in [5,60] is
encoded as `p/5 + 3`; every other p raises the range error and no PERS
write (nor any other bus operation) is performed. -/
theorem configure_alsPersistence_encoding (s : SensorState) (p : Int)
    (hm : ProxMirrorOK s.configuration) :
    ((0 ≤ p ∧ p ≤ 3) →
      (configure s { alsThresholdPersistence := some p }).error = none ∧
      (configure s { alsThresholdPersistence := some p }).state.configuration.alsThresholdPersistence = some p ∧
      ∃ w, (configure s { alsThresholdPersistence := some p }).trace
          = [BusOp.writeUint8 Register.PERS w] ∧ w % 16 = p) ∧
    ((5 ≤ p ∧ p ≤ 60 ∧ p % 5 = 0) →
      (configure s { alsThresholdPersistence := some p }).error = none ∧
      (configure s { alsThresholdPersistence := some p }).state.configuration.alsThresholdPersistence = some p ∧
      ∃ w, (configure s { alsThresholdPersistence := some p }).trace
          = [BusOp.writeUint8 Register.PERS w] ∧ w % 16 = p / 5 + 3) ∧
    ((¬(0 ≤ p ∧ p ≤ 3) ∧ ¬(5 ≤ p ∧ p ≤ 60 ∧ p % 5 = 0)) →
      (configure s { alsThresholdPersistence := some p }).error
        = some ConfigError.invalidAlsThresholdPersistence ∧
      (configure s { alsThresholdPersistence := some p }).state = s ∧
      (configure s { alsThresholdPersistence := some p }).trace = []) := by
  obtain ⟨v, hv0, hv15, hsp⟩ := storedPpers_shape s.configuration hm
  refine ⟨?_, ?_, ?_⟩
  · intro h
    rw [configure_alsPersOnly, apersFromCycles_low p h]
    refine ⟨rfl, rfl,
      Int.lor (storedPpers s.configuration.proximityThresholdPersistence) p, rfl, ?_⟩
    rw [hsp]
    exact lorNibble v p hv0 hv15 (by omega) (by omega)
  · intro h
    rw [configure_alsPersOnly, apersFromCycles_mult5 p h]
    refine ⟨rfl, rfl,
      Int.lor (storedPpers s.configuration.proximityThresholdPersistence) (p / 5 + 3), rfl, ?_⟩
    rw [hsp]
    exact lorNibble v (p / 5 + 3) hv0 hv15 (by omega) (by omega)
  · intro h
    rw [configure_alsPersOnly, apersFromCycles_invalid p h.1 h.2]
    exact ⟨rfl, rfl, rfl⟩

/-- Claim C3 witness: persistence 2 is stored and accepted on the fresh
mirror (whose proximity persistence is absent). -/
theorem configure_alsPersistence_encoding_witness :
    (configure initialState { alsThresholdPersistence := some 2 }).error = none ∧
    (configure initialState { alsThresholdPersistence := some 2 }).state.configuration.alsThresholdPersistence = some 2 := by
  have h := (configure_alsPersistence_encoding initialState 2 (Or.inl rfl)).1 (by norm_num)
  exact ⟨h.1, h.2.1⟩

/-- Claim C4 counterexample: on a driver whose stored threshold pair is
(5, 0xFFFF) with AIEN true, `configure({alsThresholdLow: 0,
alsThresholdHigh: 70000})` stores low = 0 and writes AILTL, then throws
on the out-of-range high bound before the AIEN recompute runs — leaving
the sentinel pair (0, 0xFFFF) stored with AIEN still true, refuting the
claim's unconditional biconditional for calls that set a bound but then
error. -/
theorem configure_aien_skipped_on_error_cex :
    lowFiveState.configuration.alsThresholdLow = some 5 ∧
    lowFiveState.configuration.alsThresholdHigh = some 0xFFFF ∧
    lowFiveState.configuration.enabled.AIEN = true ∧
    (configure lowFiveState
      { alsThresholdLow := some 0, alsThresholdHigh := some 70000 }).error
      = some ConfigError.invalidAlsThresholdHigh ∧
    BusOp.writeUint16 Register.AILTL 0 ∈ (configure lowFiveState
      { alsThresholdLow := some 0, alsThresholdHigh := some 70000 }).trace ∧
    (configure lowFiveState
      { alsThresholdLow := some 0, alsThresholdHigh := some 70000 }).state.configuration.alsThresholdLow
      = some 0 ∧
    (configure lowFiveState
      { alsThresholdLow := some 0, alsThresholdHigh := some 70000 }).state.configuration.alsThresholdHigh
      = some 0xFFFF ∧
    (configure lowFiveState
      { alsThresholdLow := some 0, alsThresholdHigh := some 70000 }).state.configuration.enabled.AIEN
      = true := by
  decide

/-- Claim C4 (amended): after every `configure` call that carries
`alsThresholdLow` or `alsThresholdHigh` (or both) and completes without
error, the stored AIEN flag is false if and only if the stored low
threshold is 0 and the stored high threshold is 0xFFFF.  A call that
stores one bound and then throws (for example on an out-of-range other
bound) exits before the recompute, so the derivation holds only for
error-free calls. -/
theorem configure_aien_derivation (s : SensorState) (o : Options)
    (ht : o.alsThresholdLow.isSome ∨ o.alsThresholdHigh.isSome)
    (he : (configure s o).error = none) :
    ((configure s o).state.configuration.enabled.AIEN = false ↔
      ((configure s o).state.configuration.alsThresholdLow = some 0 ∧
       (configure s o).state.configuration.alsThresholdHigh = some 0xFFFF)) := by
  simp only [configure] at he ⊢
  split_ifs at he ⊢ with hg
  · rcases hA : alsGainField (mergeOptions o s.configuration).alsGain with _ | fA
    all_goals simp only [hA] at he ⊢
    · exact Option.noConfusion he
    · rcases hP : proximityGainField (mergeOptions o s.configuration).proximityGain with _ | fP
      all_goals simp only [hP] at he ⊢
      · exact Option.noConfusion he
      · exact aien_integ _ _ _ _ ht he
  · exact aien_integ _ _ _ _ ht he

/-- Claim C4 witness: storing the sentinel pair (0, 0xFFFF) drives the
derived AIEN flag false on the constructed driver. -/
theorem configure_aien_derivation_witness :
    (configure constructedState
      { alsThresholdLow := some 0, alsThresholdHigh := some 0xFFFF }).state.configuration.enabled.AIEN = false := by
  have h := configure_aien_derivation constructedState
    { alsThresholdLow := some 0, alsThresholdHigh := some 0xFFFF } (Or.inl rfl) (by decide)
  exact h.mpr ⟨by decide, by decide⟩

/-- Claim C5 counterexample: with a saturation ceiling of 1025 (one
integration cycle) and a raw little-endian clear count of 2048, the
returned clear channel is 2048/1025 > 1, refuting "each lying in the
interval [0,1]" for unconstrained raw counts. -/
theorem sample_lightmeter_exceeds_one_cex :
    (sample poweredState 1 overflowBlock).result.map (Option.map Lightmeter.clear)
      = some (some ((2048 : ℚ) / 1025)) ∧ (1 : ℚ) < (2048 : ℚ) / 1025 := by
  constructor
  · simp [sample, poweredState, overflowBlock, normalized, le16, initialConfiguration]
  · norm_num

/-- Claim C5 (amended): with PON and AEN set and the fresh-data status
bit on, `sample` burst-reads once after the status read and returns the
four little-endian 16-bit channels each divided by the saturation
ceiling; each such quotient lies in [0,1] provided the ceiling is
positive and the raw count does not exceed it (the chip's saturation
guarantee, which the driver does not enforce). -/
theorem sample_lightmeter_normalization (s : SensorState) (status : Nat) (data : Fin 8 → Nat)
    (hP : s.configuration.enabled.PON = true) (hA : s.configuration.enabled.AEN = true)
    (hS : status % 2 = 1) :
    (sample s status data).result = some (some
      { clear := normalized (le16 (data 0) (data 1)) s.maxCount
        red := normalized (le16 (data 2) (data 3)) s.maxCount
        green := normalized (le16 (data 4) (data 5)) s.maxCount
        blue := normalized (le16 (data 6) (data 7)) s.maxCount }) ∧
    (sample s status data).trace
      = [BusOp.readUint8 Register.STATUS, BusOp.readBuffer Register.CDATAL] ∧
    ∀ raw : Nat, 0 < s.maxCount → (raw : Int) ≤ s.maxCount →
      0 ≤ normalized raw s.maxCount ∧ normalized raw s.maxCount ≤ 1 := by
  refine ⟨?_, ?_, ?_⟩
  · simp [sample, hP, hA, hS]
  · simp [sample, hP, hA, hS]
  · intro raw h1 h2
    unfold normalized
    constructor
    · apply div_nonneg
      · positivity
      · exact_mod_cast h1.le
    · rw [div_le_one (by exact_mod_cast h1)]
      exact_mod_cast h2

/-- Claim C5 witness: an all-zero data block on a powered driver with
ceiling 1025 yields the normalized channels, and a saturated-or-below
raw count normalizes into [0,1]. -/
theorem sample_lightmeter_normalization_witness :
    (sample poweredState 1 zeroBlock).result = some (some
      { clear := normalized (le16 (zeroBlock 0) (zeroBlock 1)) poweredState.maxCount
        red := normalized (le16 (zeroBlock 2) (zeroBlock 3)) poweredState.maxCount
        green := normalized (le16 (zeroBlock 4) (zeroBlock 5)) poweredState.maxCount
        blue := normalized (le16 (zeroBlock 6) (zeroBlock 7)) poweredState.maxCount }) ∧
    0 ≤ normalized 1000 poweredState.maxCount ∧ normalized 1000 poweredState.maxCount ≤ 1 := by
  have h := sample_lightmeter_normalization poweredState 1 zeroBlock rfl rfl rfl
  exact ⟨h.1, h.2.2 1000 (by decide) (by decide)⟩

/-- Claim C6: `configure` merges — every recognized option absent from
the call keeps its previous stored value in the mirror, and no register
write is issued for a register none of whose controlling options are
present in the call. -/
theorem configure_merge_frame (s : SensorState) (o : Options) :
    ((o.enableALS = none →
        (configure s o).state.configuration.enabled.AEN = s.configuration.enabled.AEN) ∧
     (o.«on» = none →
        (configure s o).state.configuration.enabled.PON = s.configuration.enabled.PON) ∧
     (o.alsGain = none →
        (configure s o).state.configuration.alsGain = s.configuration.alsGain) ∧
     (o.proximityGain = none →
        (configure s o).state.configuration.proximityGain = s.configuration.proximityGain) ∧
     (o.alsIntegrationCycles = none →
        (configure s o).state.configuration.alsIntegrationCycles
            = s.configuration.alsIntegrationCycles ∧
        (configure s o).state.maxCount = s.maxCount) ∧
     (o.alsThresholdLow = none →
        (configure s o).state.configuration.alsThresholdLow = s.configuration.alsThresholdLow) ∧
     (o.alsThresholdHigh = none →
        (configure s o).state.configuration.alsThresholdHigh = s.configuration.alsThresholdHigh) ∧
     (o.alsThresholdPersistence = none →
        (configure s o).state.configuration.alsThresholdPersistence
            = s.configuration.alsThresholdPersistence) ∧
     (o.proximityThresholdPersistence = none →
        (configure s o).state.configuration.proximityThresholdPersistence
            = s.configuration.proximityThresholdPersistence)) ∧
    ((o.alsGain = none ∧ o.proximityGain = none →
        ∀ v, BusOp.writeUint8 Register.CONTROLONE v ∉ (configure s o).trace) ∧
     (o.alsIntegrationCycles = none →
        ∀ v, BusOp.writeUint8 Register.ATIME v ∉ (configure s o).trace) ∧
     (o.alsThresholdLow = none →
        ∀ v, BusOp.writeUint16 Register.AILTL v ∉ (configure s o).trace) ∧
     (o.alsThresholdHigh = none →
        ∀ v, BusOp.writeUint16 Register.AIHTL v ∉ (configure s o).trace) ∧
     (o.alsThresholdPersistence = none ∧ o.proximityThresholdPersistence = none →
        ∀ v, BusOp.writeUint8 Register.PERS v ∉ (configure s o).trace) ∧
     (o.«on» = none ∧ o.enableALS = none ∧ o.alsThresholdLow = none ∧ o.alsThresholdHigh = none →
        ∀ v, BusOp.writeUint8 Register.ENABLE v ∉ (configure s o).trace)) := by
  obtain ⟨cyc, mc2, tl, th, ap, pp, b, hst, hcyc, htl, hth, hap2, hpp⟩ := state_configure s o
  have hfix := mergeOptions_fixed o s.configuration
  constructor
  · refine ⟨?_, ?_, ?_, ?_, ?_, ?_, ?_, ?_, ?_⟩
    · intro h
      rw [hst]
      simpa using mergeOptions_AEN_none o s.configuration h
    · intro h
      rw [hst]
      simpa using mergeOptions_PON_none o s.configuration h
    · intro h
      rw [hst]
      simpa using mergeOptions_alsGain_none o s.configuration h
    · intro h
      rw [hst]
      simpa using mergeOptions_proximityGain_none o s.configuration h
    · intro h
      rw [hst]
      exact ⟨(hcyc h).1.trans hfix.1, (hcyc h).2⟩
    · intro h
      rw [hst]
      simpa using (htl h).trans hfix.2.1
    · intro h
      rw [hst]
      simpa using (hth h).trans hfix.2.2.1
    · intro h
      rw [hst]
      simpa using (hap2 h).trans hfix.2.2.2.1
    · intro h
      rw [hst]
      simpa using (hpp h).trans hfix.2.2.2.2.1
  · refine ⟨?_, ?_, ?_, ?_, ?_, ?_⟩
    · rintro ⟨h1, h2⟩ v hv
      have h3 := memTrace_configure s o _ hv
      simp [opsConfigure, opsInteg, opsLow, opsHigh, opsPers, opsAien, opsEnable,
        Register.CONTROLONE, Register.ATIME, Register.AILTL, Register.AIHTL, Register.PERS,
        Register.ENABLE, h1, h2] at h3
    · intro h1 v hv
      have h3 := memTrace_configure s o _ hv
      simp [opsConfigure, opsInteg, opsLow, opsHigh, opsPers, opsAien, opsEnable,
        Register.CONTROLONE, Register.ATIME, Register.AILTL, Register.AIHTL, Register.PERS,
        Register.ENABLE, h1] at h3
    · intro h1 v hv
      have h3 := memTrace_configure s o _ hv
      simp [opsConfigure, opsInteg, opsLow, opsHigh, opsPers, opsAien, opsEnable,
        Register.CONTROLONE, Register.ATIME, Register.AILTL, Register.AIHTL, Register.PERS,
        Register.ENABLE, h1] at h3
    · intro h1 v hv
      have h3 := memTrace_configure s o _ hv
      simp [opsConfigure, opsInteg, opsLow, opsHigh, opsPers, opsAien, opsEnable,
        Register.CONTROLONE, Register.ATIME, Register.AILTL, Register.AIHTL, Register.PERS,
        Register.ENABLE, h1] at h3
    · rintro ⟨h1, h2⟩ v hv
      have h3 := memTrace_configure s o _ hv
      simp [opsConfigure, opsInteg, opsLow, opsHigh, opsPers, opsAien, opsEnable,
        Register.CONTROLONE, Register.ATIME, Register.AILTL, Register.AIHTL, Register.PERS,
        Register.ENABLE, h1, h2] at h3
    · rintro ⟨h1, h2, h3b, h4⟩ v hv
      have h3 := memTrace_configure s o _ hv
      simp [opsConfigure, opsInteg, opsLow, opsHigh, opsPers, opsAien, opsEnable,
        Register.CONTROLONE, Register.ATIME, Register.AILTL, Register.AIHTL, Register.PERS,
        Register.ENABLE, h1, h2, h3b, h4] at h3

/-- Claim C6 witness: an empty option bag leaves the constructed mirror's
`alsGain` untouched and issues no CONTROLONE write. -/
theorem configure_merge_frame_witness :
    (configure constructedState {}).state.configuration.alsGain
        = constructedState.configuration.alsGain ∧
    BusOp.writeUint8 Register.CONTROLONE 13 ∉ (configure constructedState {}).trace := by
  have h := configure_merge_frame constructedState {}
  exact ⟨h.1.2.2.1 rfl, h.2.1 ⟨rfl, rfl⟩ 13⟩

end APDS9960
